import Mathlib

/-!
Shallow embedding of the SMTP delivery reliability engine of the
email-bulk-sender repository: the error classifier, exponential backoff,
smart retry handler and bounce handler of src/email_enhanced.py, the SMTP
connection pool of src/email_utils.py, and the enhanced e-mail builder of
src/email_enhanced.py.

Modelling conventions.

Exceptions: the Python code inspects failures with isinstance over the
smtplib exception hierarchy.  We embed the relevant classes as the tagged
union PyExc.  In Python (3.4 and later) smtplib.SMTPException is a subclass
of OSError, smtplib.SMTPAuthenticationError and smtplib.SMTPConnectError
are subclasses of smtplib.SMTPResponseException, ConnectionError and
TimeoutError are subclasses of OSError, and smtplib.SMTPServerDisconnected
is a subclass of SMTPException (hence of OSError).  The isinstance
predicates below encode exactly those subclass facts.

Strings: str(exception) for an SMTPResponseException with args
(code, message) renders both the code and the message; we model it as
"(code, message)".  Python substring tests (the `in` operator) are modelled
by strContains, and .lower() by pyLower (ASCII lowering, which is what
matters for the ASCII phrases the classifier searches for).

Numbers: Python floats are modelled as rationals; delays in the source are
exact binary values (products of small integers and powers of two and the
constant 0.25), so rational arithmetic is faithful on the values the
program computes.  random.uniform(0, r) is modelled by an explicit
parameter u, constrained to 0 <= u <= r in the theorems that need it.

I/O: the pool of src/email_utils.py owns one live smtplib.SMTP session; we
model a session by a numeric handle identifier, connect() by allocating a
fresh identifier (next_id), and server.quit() (whose errors the source
swallows) as having no effect on the pool state.  The outcome of
server.sendmail is an explicit parameter of send_email: none models a
successful transmission, some e models sendmail raising e.
-/

/-- Python substring test over char lists: pat appears as a contiguous
infix of the list. The empty pattern is contained in everything, matching
Python. -/
def strContainsAux (pat : List Char) : List Char → Bool
  | [] => pat.isEmpty
  | c :: rest => pat.isPrefixOf (c :: rest) || strContainsAux pat rest

/-- Python `pat in hay` on strings. -/
def strContains (hay pat : String) : Bool := strContainsAux pat.data hay.data

/-- Python str.lower, char by char (ASCII case mapping suffices for the
phrases the classifier searches). -/
def pyLower (s : String) : String := String.mk (s.data.map Char.toLower)

/-- The exception classes the reliability engine inspects, as a tagged
union.  Response-like constructors carry smtp_code and smtp_error (the
bytes payload, modelled as a string); the rest carry the text str(e)
renders. OtherError stands for any exception outside the OSError
hierarchy (for example ValueError). -/
inductive PyExc where
  | SMTPResponseException (smtp_code : Int) (smtp_error : String)
  | SMTPAuthenticationError (smtp_code : Int) (smtp_error : String)
  | SMTPConnectError (smtp_code : Int) (smtp_error : String)
  | SMTPServerDisconnected (msg : String)
  | ConnectionError (msg : String)
  | TimeoutError (msg : String)
  | OSError (msg : String)
  | OtherError (msg : String)
deriving DecidableEq

/-- isinstance(e, smtplib.SMTPResponseException): true for the class itself
and its subclasses SMTPAuthenticationError and SMTPConnectError. -/
def isResponseExc : PyExc → Bool
  | .SMTPResponseException _ _ => true
  | .SMTPAuthenticationError _ _ => true
  | .SMTPConnectError _ _ => true
  | _ => false

/-- The smtp_code attribute, present exactly on response exceptions. -/
def smtpCode : PyExc → Option Int
  | .SMTPResponseException c _ => some c
  | .SMTPAuthenticationError c _ => some c
  | .SMTPConnectError c _ => some c
  | _ => none

/-- The smtp_error attribute of a response exception, "" otherwise (the
"" branch is never consulted: callers check isResponseExc first). -/
def smtpErrorText : PyExc → String
  | .SMTPResponseException _ m => m
  | .SMTPAuthenticationError _ m => m
  | .SMTPConnectError _ m => m
  | _ => ""

/-- isinstance(e, (smtplib.SMTPConnectError, smtplib.SMTPServerDisconnected,
ConnectionError, TimeoutError, OSError)).  Because smtplib.SMTPException is
a subclass of OSError in Python 3.4+, every modelled exception class except
a generic non-OS error matches this tuple (response exceptions included). -/
def isConnLike : PyExc → Bool
  | .SMTPResponseException _ _ => true
  | .SMTPAuthenticationError _ _ => true
  | .SMTPConnectError _ _ => true
  | .SMTPServerDisconnected _ => true
  | .ConnectionError _ => true
  | .TimeoutError _ => true
  | .OSError _ => true
  | .OtherError _ => false

/-- isinstance(e, smtplib.SMTPAuthenticationError). -/
def isAuthExc : PyExc → Bool
  | .SMTPAuthenticationError _ _ => true
  | _ => false

/-- str(exception): a response exception with args (code, message) renders
both; other exceptions render their message. -/
def pyStr : PyExc → String
  | .SMTPResponseException c m => "(" ++ toString c ++ ", " ++ m ++ ")"
  | .SMTPAuthenticationError c m => "(" ++ toString c ++ ", " ++ m ++ ")"
  | .SMTPConnectError c m => "(" ++ toString c ++ ", " ++ m ++ ")"
  | .SMTPServerDisconnected m => m
  | .ConnectionError m => m
  | .TimeoutError m => m
  | .OSError m => m
  | .OtherError m => m

/-- SMTPErrorClassifier.PERMANENT_ERRORS (src/email_enhanced.py lines 33-46). -/
def PERMANENT_ERRORS : List Int := [501, 502, 503, 504, 521, 530, 535, 550, 551, 552, 553, 554]

/-- SMTPErrorClassifier.TEMPORARY_ERRORS (src/email_enhanced.py lines 49-55). -/
def TEMPORARY_ERRORS : List Int := [421, 450, 451, 452, 455]

/-- SMTPErrorClassifier.RATE_LIMIT_ERRORS (src/email_enhanced.py lines 58-64). -/
def RATE_LIMIT_ERRORS : List Int := [421, 450, 451, 452, 454]

/-- SMTPErrorClassifier.classify_error (src/email_enhanced.py lines 66-123).
Returns (error type, should retry, suggested wait seconds).  The first
match models the body of the `isinstance SMTPResponseException` block: when
none of its four code rules fires, Python falls through to the checks below
it, which is what the getD fallback does. -/
def classify_error (e : PyExc) : String × Bool × Int :=
  let error_str := pyLower (pyStr e)
  let codeBranch : Option (String × Bool × Int) :=
    match smtpCode e with
    | none => none
    | some code =>
      if code == 530 || code == 535 then some ("authentication", false, 0)
      else if PERMANENT_ERRORS.contains code then some ("permanent", false, 0)
      else if RATE_LIMIT_ERRORS.contains code || strContains error_str "rate limit"
          || strContains error_str "too many" then some ("rate_limit", true, 60)
      else if TEMPORARY_ERRORS.contains code then some ("temporary", true, 10)
      else none
  codeBranch.getD <|
    if isConnLike e then ("connection", true, 15)
    else if isAuthExc e then ("authentication", false, 0)
    else if strContains error_str "authentication" || strContains error_str "login" then
      ("authentication", false, 0)
    else if strContains error_str "connection" || strContains error_str "timeout" then
      ("connection", true, 15)
    else if strContains error_str "rate" || strContains error_str "quota"
        || strContains error_str "limit" then ("rate_limit", true, 60)
    else if strContains error_str "mailbox" || strContains error_str "recipient"
        || strContains error_str "not found" then ("permanent", false, 0)
    else ("unknown", true, 10)

/-- SMTPErrorClassifier.get_error_message (src/email_enhanced.py lines 125-136):
dictionary lookup with default 未知错误. -/
def get_error_message (t : String) : String :=
  if t == "permanent" then "永久性错误(邮箱不存在或被拒绝)"
  else if t == "temporary" then "临时性错误(服务器暂时不可用)"
  else if t == "rate_limit" then "速率限制(发送过快,需要减速)"
  else if t == "connection" then "连接错误(网络问题或服务器断开)"
  else if t == "authentication" then "认证失败(用户名或密码错误)"
  else if t == "unknown" then "未知错误"
  else "未知错误"

/-- ExponentialBackoff configuration (src/email_enhanced.py lines 139-153).
Python defaults: base_delay 10.0, max_delay 300.0, jitter true. -/
structure ExponentialBackoff where
  base_delay : ℚ
  max_delay : ℚ
  jitter : Bool
deriving DecidableEq

/-- ExponentialBackoff.get_delay (src/email_enhanced.py lines 155-173).
The random draw random.uniform(0, 0.25 * delay) is passed in as u; the
theorems that use the jitter branch constrain u to that interval. -/
def get_delay (b : ExponentialBackoff) (attempt : Nat) (u : ℚ) : ℚ :=
  let delay := min (b.base_delay * 2 ^ attempt) b.max_delay
  if b.jitter then delay + u else delay

/-- SmartRetryHandler configuration (src/email_enhanced.py lines 298-311). -/
structure SmartRetryHandler where
  max_attempts : Int
  backoff : ExponentialBackoff
deriving DecidableEq

/-- SmartRetryHandler.__init__ (src/email_enhanced.py lines 301-311): the
handler builds its backoff with the given base delay and the
ExponentialBackoff defaults max_delay 300, jitter true. -/
def SmartRetryHandler.make (max_attempts : Int) (base_delay : ℚ) : SmartRetryHandler :=
  { max_attempts := max_attempts
    backoff := { base_delay := base_delay, max_delay := 300, jitter := true } }

/-- SmartRetryHandler.should_retry (src/email_enhanced.py lines 313-345).
Returns (should retry, wait seconds, error description).  attempt is the
zero-based attempt index; u is the jitter draw get_delay may consume. -/
def should_retry (h : SmartRetryHandler) (e : PyExc) (attempt : Nat) (u : ℚ) :
    Bool × ℚ × String :=
  if (attempt : Int) ≥ h.max_attempts - 1 then
    (false, 0, "已达最大重试次数")
  else
    let c := classify_error e
    let error_msg := get_error_message c.1
    if c.2.1 = false then
      (false, 0, error_msg)
    else
      let delay : ℚ := if 0 < c.2.2 then (c.2.2 : ℚ) else get_delay h.backoff attempt u
      let delay2 : ℚ := if c.1 == "rate_limit" then max delay 60 else delay
      (true, delay2, error_msg)

/-- The dictionary BounceHandler.parse_smtp_response builds
(src/email_enhanced.py lines 368-374). -/
structure BounceRecord where
  code : Int
  message : String
  is_bounce : Bool
  bounce_type : Option String
  reason : Option String
deriving DecidableEq

/-- hard_bounce_codes (src/email_enhanced.py line 377). -/
def hard_bounce_codes : List Int := [550, 551, 552, 553, 554]

/-- soft_bounce_codes (src/email_enhanced.py line 394). -/
def soft_bounce_codes : List Int := [421, 450, 451, 452]

/-- BounceHandler.parse_smtp_response (src/email_enhanced.py lines 351-408):
none for anything that is not a response exception; otherwise a record whose
bounce fields are set by the hard-bounce block and then the soft-bounce
block (the two code sets are disjoint, so at most one block fires). -/
def parse_smtp_response (e : PyExc) : Option BounceRecord :=
  if isResponseExc e then
    match smtpCode e with
    | none => none
    | some code =>
      let base : BounceRecord :=
        { code := code, message := smtpErrorText e
          is_bounce := false, bounce_type := none, reason := none }
      let r1 :=
        if hard_bounce_codes.contains code then
          { base with is_bounce := true, bounce_type := some "hard"
                      reason :=
                        if code == 550 then some "邮箱不存在或被拒绝"
                        else if code == 551 then some "用户不是本地用户"
                        else if code == 552 then some "邮箱存储空间已满"
                        else if code == 553 then some "邮箱名称不允许"
                        else if code == 554 then some "交易失败"
                        else none }
        else base
      let r2 :=
        if soft_bounce_codes.contains code then
          { r1 with is_bounce := true, bounce_type := some "soft"
                    reason :=
                      if code == 421 then some "服务不可用(临时)"
                      else if code == 450 then some "邮箱暂时不可用"
                      else if code == 451 then some "处理错误(临时)"
                      else if code == 452 then some "存储空间不足(临时)"
                      else none }
        else r1
      some r2
  else none

/-- State of SMTPConnectionPool (src/email_utils.py lines 17-44).  A live
smtplib session is modelled by a numeric handle identifier; next_id is the
identifier connect() would hand out next, so distinct handshakes yield
distinct handles. -/
structure SMTPConnectionPool where
  server : Option Nat
  emails_sent_in_current_connection : Nat
  max_emails_per_connection : Int
  next_id : Nat
deriving DecidableEq

/-- SMTPConnectionPool.get_connection (src/email_utils.py lines 59-78):
when no session exists or the session already carried max_emails
messages, quit the old session (best-effort; quitting does not touch the
pool fields), perform a fresh handshake and reset the counter; otherwise
hand back the existing session unchanged.  Returns (new pool state, the
handle given to the caller). -/
def get_connection (p : SMTPConnectionPool) : SMTPConnectionPool × Nat :=
  if p.server = none ∨
      (p.emails_sent_in_current_connection : Int) ≥ p.max_emails_per_connection then
    ({ p with server := some p.next_id
              emails_sent_in_current_connection := 0
              next_id := p.next_id + 1 }, p.next_id)
  else
    (p, p.server.getD 0)

/-- SMTPConnectionPool.send_email (src/email_utils.py lines 80-102).
transmit is the outcome of server.sendmail on the obtained handle: none
for success (the counter is incremented and True returned), some e for a
raised exception (the pool sets server to None and re-raises e).  Returns
(new pool state, none for a True return or some e for the re-raised
exception). -/
def send_email (p : SMTPConnectionPool) (transmit : Option PyExc) :
    SMTPConnectionPool × Option PyExc :=
  let q := (get_connection p).1
  match transmit with
  | none =>
      ({ q with emails_sent_in_current_connection :=
                  q.emails_sent_in_current_connection + 1 }, none)
  | some e => ({ q with server := none }, some e)

/-- Pool well-formedness: every live handle was allocated before next_id,
so the next handshake always yields a fresh identifier. -/
def PoolWF (p : SMTPConnectionPool) : Prop :=
  ∀ h, p.server = some h → h < p.next_id

/-- Builder state after EnhancedEmailBuilder.__init__
(src/email_enhanced.py lines 179-193). -/
structure EnhancedEmailBuilder where
  sender_email : String
  sender_name : Option String
  reply_to : String
  unsubscribe_email : String
deriving DecidableEq

/-- Python `x or y` for an optional string x: y when x is None or empty. -/
def pyOrStr (x : Option String) (y : String) : String :=
  match x with
  | none => y
  | some s => if s == "" then y else s

/-- Python truthiness of an optional string: false for None and "". -/
def optTruthy : Option String → Bool
  | none => false
  | some s => !(s == "")

/-- The string held by an optional value (only consulted after optTruthy). -/
def optVal : Option String → String
  | none => ""
  | some s => s

/-- EnhancedEmailBuilder.__init__ (src/email_enhanced.py lines 179-193):
reply_to defaults to the sender address, and so does unsubscribe_email
(`unsubscribe_email or sender_email`). -/
def EnhancedEmailBuilder.make (sender_email : String) (sender_name : Option String)
    (reply_to : Option String) (unsubscribe_email : Option String) : EnhancedEmailBuilder :=
  { sender_email := sender_email
    sender_name := sender_name
    reply_to := pyOrStr reply_to sender_email
    unsubscribe_email := pyOrStr unsubscribe_email sender_email }

/-- A built MIME message: headers in insertion order (msg[k] = v appends)
and body parts in attachment order as (subtype, content). -/
structure EmailMessage where
  headers : List (String × String)
  parts : List (String × String)
deriving DecidableEq

/-- EnhancedEmailBuilder.build_message (src/email_enhanced.py lines 195-264).
make_msgid and formatdate are environment-supplied values, passed in as
msgid and date; CSS inlining only rewrites the HTML content best-effort and
is modelled as the identity.  Headers are recorded in the exact order the
source sets them. -/
def build_message (b : EnhancedEmailBuilder) (recipient_email subject body_plain : String)
    (body_html : Option String) (extra_headers : List (String × String))
    (msgid date : String) : EmailMessage :=
  let fromH : String :=
    if optTruthy b.sender_name then
      optVal b.sender_name ++ " <" ++ b.sender_email ++ ">"
    else b.sender_email
  let headers :=
    [("From", fromH), ("To", recipient_email), ("Subject", subject),
     ("Message-ID", msgid), ("Date", date), ("MIME-Version", "1.0")]
    ++ (if !(b.reply_to == "") && !(b.reply_to == b.sender_email) then
          [("Reply-To", b.reply_to)] else [])
    ++ (if !(b.unsubscribe_email == "") then
          [("List-Unsubscribe", "<mailto:" ++ b.unsubscribe_email ++ "?subject=unsubscribe>"),
           ("List-Unsubscribe-Post", "List-Unsubscribe=One-Click")] else [])
    ++ [("Precedence", "bulk"), ("X-Mailer", "Python Bulk Email Sender v2.0")]
    ++ extra_headers
  let parts :=
    [("plain", body_plain)]
    ++ (if optTruthy body_html then [("html", optVal body_html)] else [])
  { headers := headers, parts := parts }

/-- A header with the given name appears in the message. -/
def hasHeader (m : EmailMessage) (name : String) : Bool :=
  m.headers.any (fun p => p.1 == name)

/-- Claim C1: once the exhausted-attempts condition attempt >= max_attempts - 1
holds, SmartRetryHandler.should_retry returns no-retry with delay 0 and the
max-attempts-reached reason (the source string 已达最大重试次数), independent
of the failure and of its classification; in particular it never returns
shouldRetry true there. -/
theorem C1_max_attempts_stops (h : SmartRetryHandler) (e : PyExc) (attempt : Nat) (u : ℚ)
    (hA : (attempt : Int) ≥ h.max_attempts - 1) :
    should_retry h e attempt u = (false, 0, "已达最大重试次数") := by
  simp [should_retry, hA]

/-- Witness for C1 at a concrete exhausted attempt: handler with
max_attempts 3, attempt index 2. -/
theorem C1_max_attempts_stops_witness :
    should_retry (SmartRetryHandler.make 3 10) (PyExc.SMTPResponseException 421 "busy") 2 0
      = (false, 0, "已达最大重试次数") :=
  C1_max_attempts_stops (SmartRetryHandler.make 3 10) (PyExc.SMTPResponseException 421 "busy")
    2 0 (by decide)

/-- Claim C2: SMTPConnectionPool.send_email either succeeds, incrementing the
obtained handle's counter by exactly one and keeping the handle, or on a
transmission failure sets server to None and re-raises that same failure, so
the next get_connection performs a fresh handshake (new handle identifier,
counter 0); the outcome parameter is consulted exactly once, so the pool
never retries internally. -/
theorem C2_send_email_behaviour (p : SMTPConnectionPool) (e : PyExc) :
    (send_email p none).2 = none
  ∧ (send_email p none).1.emails_sent_in_current_connection
      = (get_connection p).1.emails_sent_in_current_connection + 1
  ∧ (send_email p none).1.server = (get_connection p).1.server
  ∧ (send_email p (some e)).2 = some e
  ∧ (send_email p (some e)).1.server = none
  ∧ (get_connection (send_email p (some e)).1).1.server
      = some ((send_email p (some e)).1.next_id)
  ∧ (get_connection (send_email p (some e)).1).1.emails_sent_in_current_connection = 0
  ∧ (get_connection (send_email p (some e)).1).2 = (send_email p (some e)).1.next_id := by
  refine ⟨rfl, rfl, rfl, rfl, rfl, ?_, ?_, ?_⟩ <;>
    simp [send_email, get_connection]

/-- Claim C3: get_connection returns the existing handle unchanged exactly
when one exists and its counter is below the threshold; otherwise it hands
out a fresh handle (distinct from any live one, by well-formedness) with the
counter reset to 0, and well-formedness is preserved. -/
theorem C3_get_connection_rotation (p : SMTPConnectionPool) (hwf : PoolWF p) :
    (∀ h, p.server = some h →
        (p.emails_sent_in_current_connection : Int) < p.max_emails_per_connection →
        get_connection p = (p, h))
  ∧ ((p.server = none ∨
        (p.emails_sent_in_current_connection : Int) ≥ p.max_emails_per_connection) →
        (get_connection p).1.server = some p.next_id
      ∧ (get_connection p).1.emails_sent_in_current_connection = 0
      ∧ (get_connection p).2 = p.next_id
      ∧ (∀ h, p.server = some h → p.next_id ≠ h)
      ∧ PoolWF (get_connection p).1) := by
  constructor
  · intro h hs hlt
    rw [get_connection, if_neg]
    · simp [hs]
    · rintro (hnone | hge)
      · rw [hs] at hnone; cases hnone
      · exact absurd hge (not_le.mpr hlt)
  · intro hcond
    rw [get_connection, if_pos hcond]
    refine ⟨rfl, rfl, rfl, ?_, ?_⟩
    · intro h hs
      exact Nat.ne_of_gt (hwf h hs)
    · intro h hs
      simp only at hs
      cases hs
      exact Nat.lt_succ_self _

set_option maxHeartbeats 1600000 in
/-- Every classification the classifier can produce: the six return sites of
classify_error.  Shared case analysis for the classifier theorems. -/
theorem classify_error_cases (e : PyExc) :
    classify_error e = ("authentication", false, 0)
  ∨ classify_error e = ("permanent", false, 0)
  ∨ classify_error e = ("rate_limit", true, 60)
  ∨ classify_error e = ("temporary", true, 10)
  ∨ classify_error e = ("connection", true, 15)
  ∨ classify_error e = ("unknown", true, 10) := by
  unfold classify_error
  cases e <;> simp only [smtpCode, isConnLike, isAuthExc] <;> (repeat' split) <;> simp

/-- A classification whose kind is rate_limit is the full rate-limit result:
retryable with suggested delay 60. -/
theorem classify_rate_limit_full (e : PyExc)
    (hk : (classify_error e).1 = "rate_limit") :
    classify_error e = ("rate_limit", true, 60) := by
  rcases classify_error_cases e with h | h | h | h | h | h <;> rw [h] at hk ⊢ <;> simp_all

/-- Claim C10: classify_error returns retryable true exactly when the
suggested delay is positive; the non-retryable kinds are permanent and
authentication with delay 0, and the retryable kinds are temporary,
rate_limit, connection and unknown with delay 10, 15 or 60. -/
theorem C10_retryable_iff_positive_delay (e : PyExc) :
    ((classify_error e).2.1 = true ↔ 0 < (classify_error e).2.2)
  ∧ (((classify_error e).2.1 = true
        ∧ ((classify_error e).1 = "temporary" ∨ (classify_error e).1 = "rate_limit"
            ∨ (classify_error e).1 = "connection" ∨ (classify_error e).1 = "unknown")
        ∧ ((classify_error e).2.2 = 10 ∨ (classify_error e).2.2 = 15
            ∨ (classify_error e).2.2 = 60))
    ∨ ((classify_error e).2.1 = false
        ∧ ((classify_error e).1 = "permanent" ∨ (classify_error e).1 = "authentication")
        ∧ (classify_error e).2.2 = 0)) := by
  rcases classify_error_cases e with h | h | h | h | h | h <;> rw [h] <;> norm_num

/-- Witness for C3 at a concrete pool with no live handle: get_connection
performs a fresh handshake, handing out handle 5 with counter 0. -/
theorem C3_get_connection_rotation_witness :
    (get_connection (⟨none, 0, 50, 5⟩ : SMTPConnectionPool)).1.server = some 5
  ∧ (get_connection (⟨none, 0, 50, 5⟩ :
        SMTPConnectionPool)).1.emails_sent_in_current_connection = 0 := by
  have h := (C3_get_connection_rotation (⟨none, 0, 50, 5⟩ : SMTPConnectionPool)
    (fun h hs => Option.noConfusion hs)).2 (Or.inl rfl)
  exact ⟨h.1, h.2.1⟩

/-- Claim C6: below the attempt budget, a failure classified rate_limit
yields a retry decision with shouldRetry true and delay at least 60; and
the concrete failure code 421 with message rate limit exceeded is
classified rate_limit, retryable, suggested delay 60. -/
theorem C6_rate_limit_decision (h : SmartRetryHandler) (e : PyExc) (attempt : Nat) (u : ℚ)
    (hk : (classify_error e).1 = "rate_limit")
    (hA : (attempt : Int) < h.max_attempts - 1) :
    (should_retry h e attempt u).1 = true
  ∧ (60 : ℚ) ≤ (should_retry h e attempt u).2.1
  ∧ classify_error (PyExc.SMTPResponseException 421 "rate limit exceeded")
      = ("rate_limit", true, 60) := by
  have hc := classify_rate_limit_full e hk
  rw [should_retry, if_neg (not_le.mpr hA)]
  rw [hc]
  norm_num
  decide

/-- Witness for C6: handler with max_attempts 3 at attempt 0, failure with
code 421 (in the rate-limit code set). -/
theorem C6_rate_limit_decision_witness :
    (should_retry (SmartRetryHandler.make 3 10) (PyExc.SMTPResponseException 421 "busy") 0 0).1
      = true
  ∧ (60 : ℚ) ≤ (should_retry (SmartRetryHandler.make 3 10)
      (PyExc.SMTPResponseException 421 "busy") 0 0).2.1
  ∧ classify_error (PyExc.SMTPResponseException 421 "rate limit exceeded")
      = ("rate_limit", true, 60) :=
  C6_rate_limit_decision (SmartRetryHandler.make 3 10) (PyExc.SMTPResponseException 421 "busy")
    0 0 (by decide) (by decide)

/-- Claim C7: every protocol failure with a code in the hard-bounce set
550-554 is parsed as a hard bounce (is_bounce true, bounce_type hard), is
independently classified non-retryable by the classifier (the set is
contained in the permanent codes), and should_retry refuses a retry at
every attempt index — the bounce override and the generic classification
agree. -/
theorem C7_hard_bounce_consistency (code : Int) (msg : String) (h : SmartRetryHandler)
    (attempt : Nat) (u : ℚ)
    (hc : code = 550 ∨ code = 551 ∨ code = 552 ∨ code = 553 ∨ code = 554) :
    (∃ r, parse_smtp_response (PyExc.SMTPResponseException code msg) = some r
        ∧ r.is_bounce = true ∧ r.bounce_type = some "hard")
  ∧ (classify_error (PyExc.SMTPResponseException code msg)).2.1 = false
  ∧ (should_retry h (PyExc.SMTPResponseException code msg) attempt u).1 = false := by
  have hperm : classify_error (PyExc.SMTPResponseException code msg)
      = ("permanent", false, 0) := by
    rcases hc with rfl | rfl | rfl | rfl | rfl <;> rfl
  refine ⟨?_, ?_, ?_⟩
  · rcases hc with rfl | rfl | rfl | rfl | rfl <;> exact ⟨_, rfl, rfl, rfl⟩
  · rw [hperm]
  · rw [should_retry]
    split
    · rfl
    · rw [hperm]
      rfl

/-- Witness for C7 at code 550: hard bounce, non-retryable classification,
no retry at attempt 0 for a handler with budget 3. -/
theorem C7_hard_bounce_consistency_witness :
    (∃ r, parse_smtp_response (PyExc.SMTPResponseException 550 "User unknown") = some r
        ∧ r.is_bounce = true ∧ r.bounce_type = some "hard")
  ∧ (classify_error (PyExc.SMTPResponseException 550 "User unknown")).2.1 = false
  ∧ (should_retry (SmartRetryHandler.make 3 10)
      (PyExc.SMTPResponseException 550 "User unknown") 0 0).1 = false :=
  C7_hard_bounce_consistency 550 "User unknown" (SmartRetryHandler.make 3 10) 0 0 (Or.inl rfl)

/-- Counterexample for C4: the protocol failure with code 599 (in none of
the code sets) and message text matching no phrase is classified
connection with delay 15, not unknown with delay 10, because a response
exception is itself an OSError and matches the transport-level isinstance
tuple. -/
theorem C4_counterexample :
    classify_error (PyExc.SMTPResponseException 599 "boom") = ("connection", true, 15)
  ∧ classify_error (PyExc.SMTPResponseException 599 "boom") ≠ ("unknown", true, 10) := by
  decide

/-- Claim C4 as amended: a protocol-response failure whose code is in none
of the code sets and whose rendered text contains neither rate limit nor
too many is classified connection, retryable, delay 15 (smtplib response
exceptions are OSError subclasses, so they match the connection
isinstance rule); kind unknown with delay 10 is reserved for failures
outside the OSError hierarchy whose text matches no phrase. -/
theorem C4_amended_fallthrough (code : Int) (msg : String)
    (h1 : code ≠ 530) (h2 : code ≠ 535)
    (h3 : code ∉ PERMANENT_ERRORS) (h4 : code ∉ RATE_LIMIT_ERRORS)
    (h5 : strContains (pyLower (pyStr (PyExc.SMTPResponseException code msg))) "rate limit"
        = false)
    (h6 : strContains (pyLower (pyStr (PyExc.SMTPResponseException code msg))) "too many"
        = false)
    (h7 : code ∉ TEMPORARY_ERRORS) :
    classify_error (PyExc.SMTPResponseException code msg) = ("connection", true, 15) := by
  simp [classify_error, smtpCode, isConnLike, h1, h2, h3, h4, h5, h6, h7]

/-- Witness for the amended C4 at code 599 with message zap. -/
theorem C4_amended_fallthrough_witness :
    classify_error (PyExc.SMTPResponseException 599 "zap") = ("connection", true, 15) :=
  C4_amended_fallthrough 599 "zap" (by decide) (by decide) (by decide) (by decide)
    (by decide) (by decide) (by decide)

/-- Claim C5: with jitter disabled the delay for zero-based attempt a is
exactly min(base * 2 ^ a, max) independent of the random draw, hence
deterministic, monotonically non-decreasing in a (for a non-negative base
delay, as any delay configuration has), bounded by max_delay, and equal to
10, 20, 40 on attempts 0, 1, 2 for base 10 with the default max 300. -/
theorem C5_backoff_no_jitter (b : ExponentialBackoff) (hj : b.jitter = false)
    (hb : 0 ≤ b.base_delay) :
    (∀ (a : Nat) (u : ℚ), get_delay b a u = min (b.base_delay * 2 ^ a) b.max_delay)
  ∧ (∀ (a a' : Nat) (u u' : ℚ), a ≤ a' → get_delay b a u ≤ get_delay b a' u')
  ∧ (∀ (a : Nat) (u : ℚ), get_delay b a u ≤ b.max_delay)
  ∧ (∀ u : ℚ, get_delay ⟨10, 300, false⟩ 0 u = 10
      ∧ get_delay ⟨10, 300, false⟩ 1 u = 20
      ∧ get_delay ⟨10, 300, false⟩ 2 u = 40) := by
  have heq : ∀ (a : Nat) (u : ℚ), get_delay b a u = min (b.base_delay * 2 ^ a) b.max_delay := by
    intro a u; simp [get_delay, hj]
  refine ⟨heq, ?_, ?_, ?_⟩
  · intro a a' u u' haa
    rw [heq, heq]
    exact min_le_min (mul_le_mul_of_nonneg_left (pow_le_pow_right₀ one_le_two haa) hb) le_rfl
  · intro a u; rw [heq]; exact min_le_right _ _
  · intro u; refine ⟨?_, ?_, ?_⟩ <;> norm_num [get_delay]

/-- Witness for C5: the 10, 20, 40 schedule at base 10 without jitter. -/
theorem C5_backoff_no_jitter_witness :
    get_delay (⟨10, 300, false⟩ : ExponentialBackoff) 0 0 = 10
  ∧ get_delay (⟨10, 300, false⟩ : ExponentialBackoff) 1 0 = 20
  ∧ get_delay (⟨10, 300, false⟩ : ExponentialBackoff) 2 0 = 40 :=
  (C5_backoff_no_jitter ⟨10, 300, false⟩ rfl (by norm_num)).2.2.2 0

/-- Counterexample for C9: with base 10 and max 300 at attempt 5 the draw
0 is legal (it lies in [0, 0.25 * min(base * 2 ^ 5, max)]), yet the
computed delay 300 is strictly below base * 2 ^ 5 = 320, so the delay does
not lie in the interval [base * 2 ^ a, 1.25 * min(base * 2 ^ a, max)]
the claim states. -/
theorem C9_counterexample :
    (0 : ℚ) ≤ 0
  ∧ (0 : ℚ) ≤ 0.25 * min ((10 : ℚ) * 2 ^ (5 : Nat)) 300
  ∧ get_delay (⟨10, 300, true⟩ : ExponentialBackoff) 5 0 < 10 * 2 ^ (5 : Nat) := by
  norm_num [get_delay]

/-- Claim C9 as amended: with jitter enabled and a draw u in
[0, 0.25 * min(base * 2 ^ a, max)], the delay lies in
[min(base * 2 ^ a, max), 1.25 * min(base * 2 ^ a, max)] (the lower end is
the capped exponential value, not the uncapped base * 2 ^ a) and is
bounded above by 1.25 * max_delay. -/
theorem C9_amended_jitter_bounds (b : ExponentialBackoff) (hj : b.jitter = true)
    (a : Nat) (u : ℚ) (h0 : 0 ≤ u)
    (h1 : u ≤ 0.25 * min (b.base_delay * 2 ^ a) b.max_delay) :
    min (b.base_delay * 2 ^ a) b.max_delay ≤ get_delay b a u
  ∧ get_delay b a u ≤ 1.25 * min (b.base_delay * 2 ^ a) b.max_delay
  ∧ get_delay b a u ≤ 1.25 * b.max_delay := by
  have heq : get_delay b a u = min (b.base_delay * 2 ^ a) b.max_delay + u := by
    simp [get_delay, hj]
  have hmm : min (b.base_delay * 2 ^ a) b.max_delay ≤ b.max_delay := min_le_right _ _
  refine ⟨?_, ?_, ?_⟩ <;> rw [heq] <;> linarith

/-- Witness for the amended C9 at base 10, max 300, attempt 2, draw 0. -/
theorem C9_amended_jitter_bounds_witness :
    min ((10 : ℚ) * 2 ^ (2 : Nat)) 300 ≤ get_delay (⟨10, 300, true⟩ : ExponentialBackoff) 2 0
  ∧ get_delay (⟨10, 300, true⟩ : ExponentialBackoff) 2 0
      ≤ 1.25 * min ((10 : ℚ) * 2 ^ (2 : Nat)) 300
  ∧ get_delay (⟨10, 300, true⟩ : ExponentialBackoff) 2 0 ≤ 1.25 * 300 :=
  C9_amended_jitter_bounds ⟨10, 300, true⟩ rfl 2 0 le_rfl (by norm_num)

/-- Counterexample for C8: a builder constructed with no unsubscribe
address falls back to the sender address (unsubscribe_email or
sender_email in the constructor), so the built message carries both
List-Unsubscribe headers even though none was configured. -/
theorem C8_counterexample :
    (EnhancedEmailBuilder.make "test@example.com" none none none).unsubscribe_email
      = "test@example.com"
  ∧ hasHeader (build_message (EnhancedEmailBuilder.make "test@example.com" none none none)
      "r@x.com" "hello" "body" none [] "mid" "date") "List-Unsubscribe" = true
  ∧ hasHeader (build_message (EnhancedEmailBuilder.make "test@example.com" none none none)
      "r@x.com" "hello" "body" none [] "mid" "date") "List-Unsubscribe-Post" = true := by
  decide

/-- Claim C8 as amended: for a builder made from the given constructor
arguments, the List-Unsubscribe header and its one-click variant are both
present iff the effective unsubscribe address — the configured one, the
sender address when none or empty was configured — is non-empty (extra
headers are assumed not to inject those two names themselves). -/
theorem C8_amended_header_iff (se : String) (sn rt ue : Option String)
    (recipient subject plain : String) (bh : Option String)
    (extra : List (String × String)) (msgid date : String)
    (hx : ∀ p ∈ extra, p.1 ≠ "List-Unsubscribe" ∧ p.1 ≠ "List-Unsubscribe-Post") :
    (hasHeader (build_message (EnhancedEmailBuilder.make se sn rt ue)
        recipient subject plain bh extra msgid date) "List-Unsubscribe" = true
      ∧ hasHeader (build_message (EnhancedEmailBuilder.make se sn rt ue)
        recipient subject plain bh extra msgid date) "List-Unsubscribe-Post" = true)
  ↔ pyOrStr ue se ≠ "" := by
  have hex1 : extra.any (fun p => p.1 == "List-Unsubscribe") = false := by
    rw [List.any_eq_false]
    intro p hp
    simpa using (hx p hp).1
  have hex2 : extra.any (fun p => p.1 == "List-Unsubscribe-Post") = false := by
    rw [List.any_eq_false]
    intro p hp
    simpa using (hx p hp).2
  by_cases hu : pyOrStr ue se = ""
  · simp [hasHeader, build_message, EnhancedEmailBuilder.make, List.any_append, hu,
      hex1, hex2]
  · simp [hasHeader, build_message, EnhancedEmailBuilder.make, List.any_append, hu,
      hex1, hex2]

/-- Witness for the amended C8: configured unsubscribe address u@b.c on
sender a@b.c, no extra headers. -/
theorem C8_amended_header_iff_witness :
    (hasHeader (build_message (EnhancedEmailBuilder.make "a@b.c" none none (some "u@b.c"))
        "r@x.com" "s" "b" none [] "mid" "date") "List-Unsubscribe" = true
      ∧ hasHeader (build_message (EnhancedEmailBuilder.make "a@b.c" none none (some "u@b.c"))
        "r@x.com" "s" "b" none [] "mid" "date") "List-Unsubscribe-Post" = true)
  ↔ pyOrStr (some "u@b.c") "a@b.c" ≠ "" :=
  C8_amended_header_iff "a@b.c" none none (some "u@b.c") "r@x.com" "s" "b" none [] "mid" "date"
    (fun p hp => absurd hp (List.not_mem_nil p))
